import Mathlib

/-!
# QT_ITEM: three Qt demo windows, embedded as state transformers

The repository holds three independent Qt programs.  Each slot of a window class
is translated into a pure function on a record that holds the part of the widget
tree the slot reads or writes.

* `SlotSignal.Dialog`      : `Slot and Signal_Code/dialog.cpp`
* `Untitled7_2.MainWindow` : `untitled7_2/mainwindow.cpp`
* `Experiment.MainWindow`  : `Experiment/untitled_0/mainwindow.cpp`

Calls into the Qt library are modelled by what Qt does with them.  A setter
writes the property it names (`setUnderline` the underline bit of a font value,
`setAttribute` the attribute bit).  In the container window pointers are
positions in the list of objects created with `new`, and the model follows the
objects through their life: `QMainWindow::setCentralWidget` hides the widget it
replaces and calls `deleteLater()` on it, the event loop deletes such an object
with its children once the slots have returned, `QMdiArea::addSubWindow` wraps a
plain widget in a `QMdiSubWindow` on which it sets `Qt::WA_DeleteOnClose`, and a
slot that uses a pointer to a deleted object has no defined result (`none`).
In the editor window the sub-window list counts the widgets handed to
`addSubWindow`.  Painting and layout are not part of the model.
-/

namespace SlotSignal

/-! ## `Slot and Signal_Code/dialog.cpp` -/

/-- The members of `Qt::GlobalColor` that `do_setFontColor` uses. -/
inductive GlobalColor
  | black
  | blue
  | red
  | green
  deriving DecidableEq, Repr

/-- A `QColor`, built either from a `Qt::GlobalColor` or from a colour name such
as `"#aaff7f"`. -/
inductive QColor
  | global (c : GlobalColor)
  | named (name : String)
  deriving DecidableEq, Repr

/-- The colour roles of a palette that the model keeps apart. -/
inductive ColorRole
  | WindowText
  | Base
  | Text
  deriving DecidableEq, Repr

/-- A `QPalette`: one colour per role. -/
structure QPalette where
  windowText : QColor
  base : QColor
  text : QColor
  deriving DecidableEq, Repr

/-- The call `palette.setColor(role, color)`. -/
def QPalette.setColor (p : QPalette) (role : ColorRole) (color : QColor) : QPalette :=
  match role with
  | .WindowText => { p with windowText := color }
  | .Base => { p with base := color }
  | .Text => { p with text := color }

/-- A `QFont` value: the attributes the dialog reads or writes, and the family. -/
structure QFont where
  family : String
  pixelSize : Int
  bold : Bool
  italic : Bool
  underline : Bool
  deriving DecidableEq, Repr

/-- The call `font.setPixelSize(n)`. -/
def QFont.setPixelSize (f : QFont) (n : Int) : QFont := { f with pixelSize := n }

/-- The call `font.setUnderline(b)`. -/
def QFont.setUnderline (f : QFont) (b : Bool) : QFont := { f with underline := b }

/-- The call `font.setItalic(b)`. -/
def QFont.setItalic (f : QFont) (b : Bool) : QFont := { f with italic := b }

/-- The call `font.setBold(b)`. -/
def QFont.setBold (f : QFont) (b : Bool) : QFont := { f with bold := b }

/-- The `QPlainTextEdit` named `txtEdit`: its text, font and palette. -/
structure QPlainTextEdit where
  plainText : String
  font : QFont
  palette : QPalette
  deriving DecidableEq, Repr

/-- The call `txtEdit->setFont(font)`. -/
def QPlainTextEdit.setFont (t : QPlainTextEdit) (f : QFont) : QPlainTextEdit :=
  { t with font := f }

/-- The call `txtEdit->setPalette(palette)`. -/
def QPlainTextEdit.setPalette (t : QPlainTextEdit) (p : QPalette) : QPlainTextEdit :=
  { t with palette := p }

/-- The call `txtEdit->setPlainText(text)`. -/
def QPlainTextEdit.setPlainText (t : QPlainTextEdit) (text : String) : QPlainTextEdit :=
  { t with plainText := text }

/-- The call `txtEdit->clear()`. -/
def QPlainTextEdit.clear (t : QPlainTextEdit) : QPlainTextEdit :=
  { t with plainText := "" }

/-- The state of a `Dialog`: whether each radio button is checked, and the text
widget.  The check boxes pass their state to the slots as the argument of
`clicked(bool)`, so the slots never read it from the widget. -/
structure Dialog where
  radioblack : Bool
  radiobule : Bool
  radiorad : Bool
  txtEdit : QPlainTextEdit
  deriving DecidableEq, Repr

/-- The method `Dialog::iniu`: `defaultFont` and `defaultPalette` are what a fresh
`QPlainTextEdit` reports; the three radio buttons start unchecked. -/
def Dialog.iniu (defaultFont : QFont) (defaultPalette : QPalette) : Dialog :=
  let txtEdit : QPlainTextEdit :=
    { plainText := "", font := defaultFont, palette := defaultPalette }
  let txtEdit := txtEdit.setPlainText "hoold\n手工建设"
  let font := txtEdit.font
  let font := font.setPixelSize 20
  let palette := txtEdit.palette
  let palette := palette.setColor .Text (.named "#aaff7f")
  let txtEdit := txtEdit.setFont font
  let txtEdit := txtEdit.setPalette palette
  { radioblack := false, radiobule := false, radiorad := false, txtEdit := txtEdit }

/-- The slot `Dialog::do_chkcbokunder`. -/
def Dialog.do_chkcbokunder (d : Dialog) (checked : Bool) : Dialog :=
  let font := d.txtEdit.font
  let font := font.setUnderline checked
  { d with txtEdit := d.txtEdit.setFont font }

/-- The slot `Dialog::do_checbokitalic`. -/
def Dialog.do_checbokitalic (d : Dialog) (checked : Bool) : Dialog :=
  let font := d.txtEdit.font
  let font := font.setItalic checked
  { d with txtEdit := d.txtEdit.setFont font }

/-- The slot `Dialog::do_checbokboxdold`. -/
def Dialog.do_checbokboxdold (d : Dialog) (checked : Bool) : Dialog :=
  let font := d.txtEdit.font
  let font := font.setBold checked
  { d with txtEdit := d.txtEdit.setFont font }

/-- The slot `Dialog::do_setFontColor`. -/
def Dialog.do_setFontColor (d : Dialog) : Dialog :=
  let palette := d.txtEdit.palette
  let palette :=
    if d.radioblack then palette.setColor .Text (.global .black)
    else if d.radiobule then palette.setColor .Text (.global .blue)
    else if d.radiorad then palette.setColor .Text (.global .red)
    else palette.setColor .Text (.global .green)
  { d with txtEdit := d.txtEdit.setPalette palette }

/-- The slot `Dialog::do_btncancel`. -/
def Dialog.do_btncancel (d : Dialog) : Dialog :=
  { d with txtEdit := d.txtEdit.clear }

/-- The three check boxes of the dialog. -/
inductive CheckBox
  | chekcbokunder
  | chekcbokitalic
  | chekcboxbold
  deriving DecidableEq, Repr

/-- The check-box connections of `Dialog::inisignalslots`: the signal
`clicked(bool)` of each check box runs the slot connected to it. -/
def Dialog.clicked (d : Dialog) (sender : CheckBox) (checked : Bool) : Dialog :=
  match sender with
  | .chekcbokunder => d.do_chkcbokunder checked
  | .chekcbokitalic => d.do_checbokitalic checked
  | .chekcboxbold => d.do_checbokboxdold checked

/-- A finite sequence of check-box clicks, dispatched one after the other. -/
def Dialog.clicks (d : Dialog) (cs : List (CheckBox × Bool)) : Dialog :=
  cs.foldl (fun s c => s.clicked c.1 c.2) d

/-- The clicks of a sequence that went to the check box `cb`, in order. -/
def clicksOn (cb : CheckBox) (cs : List (CheckBox × Bool)) : List (CheckBox × Bool) :=
  cs.filter (fun c => decide (c.1 = cb))

/-- The boolean carried by the last click on `cb`, if there was one. -/
def lastClicked (cb : CheckBox) (cs : List (CheckBox × Bool)) : Option Bool :=
  (clicksOn cb cs).getLast?.map (fun c => c.2)

/-- A concrete dialog: the one `iniu` builds from a plain default font and a
black-on-white palette. -/
def Dialog.sample : Dialog :=
  Dialog.iniu
    { family := "Sans", pixelSize := 12, bold := false, italic := false, underline := false }
    { windowText := .global .black, base := .named "#ffffff", text := .global .black }

end SlotSignal


namespace Untitled7_2

/-! ## `untitled7_2/mainwindow.cpp` -/

/-- The `QAction` objects of `Ui::MainWindow` that the window class mentions, and
`action_1`, whose slot it defines. -/
inductive QAction
  | actionMDI
  | action_11
  | action
  | action_13
  | actionwigdet
  | action_wigdet
  | action_9
  | action_10
  | action_1
  deriving DecidableEq, Repr

/-- The part of `Ui::MainWindow` the class writes: the `visible` property of six
actions. -/
structure Ui where
  action : Bool
  action_13 : Bool
  actionwigdet : Bool
  action_wigdet : Bool
  action_9 : Bool
  action_10 : Bool
  deriving DecidableEq, Repr

/-- The classes of the objects created with `new`, by the window or, for
`QMdiSubWindow`, by `QMdiArea::addSubWindow` on its behalf. -/
inductive Class
  | QActionGroup
  | QMdiArea
  | QTabWidget
  | FormDoc
  | TTable
  | widget_edit
  | QMdiSubWindow
  deriving DecidableEq, Repr

/-- The parent of an object: none, the main window (`this`), or an object created
earlier. -/
inductive Parent
  | null
  | this
  | object (p : Nat)
  deriving DecidableEq, Repr

/-- An object created with `new`: its class, its parent, the widget properties
the slots write (`visible` records `show()` and `hide()`), and whether it has been
destroyed.  A pointer to it is its position in `MainWindow.objects`; the entry
of a destroyed object stays, so a pointer to it dangles. -/
structure QObject where
  cls : Class
  parent : Parent
  deleteOnClose : Bool
  windowTitle : String
  visible : Bool
  destroyed : Bool
  deriving DecidableEq, Repr

/-- Applies `f` to the object a pointer refers to. -/
def modifyAt (objects : List QObject) (p : Nat) (f : QObject → QObject) : List QObject :=
  match objects[p]? with
  | some o => objects.set p (f o)
  | none => objects

/-- Whether a pointer refers to an object that exists and is not destroyed. -/
def aliveIn (objects : List QObject) (p : Nat) : Bool :=
  match objects[p]? with
  | some o => !o.destroyed
  | none => false

/-- Whether a pointer refers to a destroyed object. -/
def destroyedIn (objects : List QObject) (p : Nat) : Bool :=
  match objects[p]? with
  | some o => o.destroyed
  | none => false

/-- One round of `QObject` tree destruction: every object whose parent object is
destroyed is destroyed. -/
def sweep (objects : List QObject) : List QObject :=
  objects.map fun o =>
    match o.parent with
    | .object p => if destroyedIn objects p then { o with destroyed := true } else o
    | .null => o
    | .this => o

/-- The rounds of `sweep`, one after the other. -/
def sweepN : Nat → List QObject → List QObject
  | 0, objects => objects
  | n + 1, objects => sweepN n (sweep objects)

/-- The statement `delete p`: the object is destroyed, and with it its children,
their children and so on (a chain is no longer than the store). -/
def destroy (objects : List QObject) (p : Nat) : List QObject :=
  sweepN objects.length (modifyAt objects p (fun o => { o with destroyed := true }))

/-- The state of the container window.  `tabs` and `tabsClosable` belong to the
object `tabwidget` points to, `subWindowList` to the one `midarea` points to,
`groupActions` to the one `group` points to; `deferredDelete` holds the objects
on which `deleteLater()` was called and which the event loop has not deleted
yet; `debug` collects the `qDebug` lines. -/
structure MainWindow where
  ui : Ui
  objects : List QObject
  group : Nat
  groupActions : List QAction
  midarea : Nat
  tabwidget : Nat
  centralWidget : Option Nat
  tabs : List (Nat × String)
  tabsClosable : Bool
  subWindowList : List Nat
  deferredDelete : List Nat
  debug : List String
  deriving DecidableEq, Repr

/-- Whether a pointer of the window refers to a live object. -/
def MainWindow.alive (s : MainWindow) (p : Nat) : Bool :=
  aliveIn s.objects p

/-- The expression `new C(parent)`: the object is appended and its pointer
returned; it has no attribute set, an empty title and is not shown (the
constructor of `widget_edit` only calls `setupUi`, and whatever those of `FormDoc`
and `TTable` do, the slots write the delete-on-close attribute after them).
Handing a destroyed object over as parent is undefined. -/
def MainWindow.new (s : MainWindow) (cls : Class) (parent : Parent) :
    Option (Nat × MainWindow) :=
  let fresh : QObject :=
    { cls := cls, parent := parent, deleteOnClose := false, windowTitle := "",
      visible := false, destroyed := false }
  let t : MainWindow := { s with objects := s.objects ++ [fresh] }
  match parent with
  | .object p => if s.alive p then some (s.objects.length, t) else none
  | .null => some (s.objects.length, t)
  | .this => some (s.objects.length, t)

/-- The call `w->setAttribute(Qt::WA_DeleteOnClose)`, on an object just created. -/
def MainWindow.setAttribute_WA_DeleteOnClose (s : MainWindow) (w : Nat) : MainWindow :=
  { s with objects := modifyAt s.objects w (fun o => { o with deleteOnClose := true }) }

/-- The call `w->setWindowTitle(title)`, on an object just created. -/
def MainWindow.setWindowTitle (s : MainWindow) (w : Nat) (title : String) : MainWindow :=
  { s with objects := modifyAt s.objects w (fun o => { o with windowTitle := title }) }

/-- The call `w->show()`, on an object just created. -/
def MainWindow.show (s : MainWindow) (w : Nat) : MainWindow :=
  { s with objects := modifyAt s.objects w (fun o => { o with visible := true }) }

/-- The call `this->setCentralWidget(w)`, as `QMainWindow` implements it: a
central widget other than `w` is hidden and `deleteLater()` is called on it, then
`w` takes the central slot.  The window never calls `takeCentralWidget()`, so this
is the only way a central widget leaves the slot.  Passing or replacing a
destroyed widget is undefined. -/
def MainWindow.setCentralWidget (s : MainWindow) (w : Nat) : Option MainWindow :=
  if s.alive w then
    match s.centralWidget with
    | none => some { s with centralWidget := some w }
    | some old =>
      if old = w then some s
      else if s.alive old then
        some { s with
          objects := modifyAt s.objects old (fun o => { o with visible := false })
          deferredDelete := s.deferredDelete ++ [old]
          centralWidget := some w }
      else none
  else none

/-- The call `tabwidget->addTab(page, label)`: the page becomes a child of the tab
widget and goes to the end of the tab list.  Undefined on a destroyed tab
widget. -/
def MainWindow.addTab (s : MainWindow) (page : Nat) (label : String) : Option MainWindow :=
  if s.alive s.tabwidget then
    some { s with
      objects := modifyAt s.objects page (fun o => { o with parent := .object s.tabwidget })
      tabs := s.tabs ++ [(page, label)] }
  else none

/-- The call `tabwidget->removeTab(index)`: nothing happens when no page has that
index; the page removed is not deleted.  Undefined on a destroyed tab widget. -/
def MainWindow.removeTab (s : MainWindow) (index : Int) : Option MainWindow :=
  if s.alive s.tabwidget then
    if 0 ≤ index ∧ index < s.tabs.length then
      some { s with tabs := s.tabs.eraseIdx index.toNat }
    else some s
  else none

/-- The call `midarea->addSubWindow(widget)` for a widget that is not itself a
`QMdiSubWindow`: the MDI area creates a `QMdiSubWindow` as its child, sets
`Qt::WA_DeleteOnClose` on it, makes `widget` its internal widget (and child) and
appends the sub-window to its list.  Undefined on a destroyed MDI area. -/
def MainWindow.addSubWindow (s : MainWindow) (widget : Nat) : Option MainWindow :=
  if s.alive s.midarea then do
    let (child, s) ← s.new .QMdiSubWindow (.object s.midarea)
    let s := s.setAttribute_WA_DeleteOnClose child
    let s := { s with
      objects := modifyAt s.objects widget (fun o => { o with parent := .object child }) }
    pure { s with subWindowList := s.subWindowList ++ [child] }
  else none

/-- The call `qDebug(line)`. -/
def MainWindow.qDebug (s : MainWindow) (line : String) : MainWindow :=
  { s with debug := s.debug ++ [line] }

/-- The slot `MainWindow::do_take_tabwidget`. -/
def MainWindow.do_take_tabwidget (s : MainWindow) (model : Int) : Option MainWindow :=
  s.removeTab model

/-- The slot `MainWindow::do_show`. -/
def MainWindow.do_show (s : MainWindow) (act : QAction) : MainWindow :=
  if act = QAction.action_11 then
    { s with ui := { action := true, action_13 := true, actionwigdet := true,
                     action_wigdet := true, action_9 := false, action_10 := false } }
  else
    { s with ui := { action := false, action_13 := false, actionwigdet := false,
                     action_wigdet := false, action_9 := true, action_10 := true } }

/-- The constructor `MainWindow::MainWindow` (the name is taken by the type), run
on what `setupUi` left: the actions `ui` and the objects created so far.  The two
`connect` calls are the dispatch of `MainWindow.trigger` and `MainWindow.step`;
the event filter only paints.  A central widget installed by `setupUi` is not
tracked: the slot starts empty. -/
def MainWindow.construct (ui : Ui) (objects : List QObject) : Option MainWindow := do
  let s : MainWindow :=
    { ui := ui, objects := objects, group := 0, groupActions := [], midarea := 0,
      tabwidget := 0, centralWidget := none, tabs := [], tabsClosable := false,
      subWindowList := [], deferredDelete := [], debug := [] }
  let (group, s) ← s.new .QActionGroup .this
  let s := { s with group := group }
  let s := { s with groupActions := s.groupActions ++ [QAction.actionMDI] }
  let s := { s with groupActions := s.groupActions ++ [QAction.action_11] }
  let s := { s with ui := { s.ui with action := false } }
  let s := { s with ui := { s.ui with action_13 := false } }
  let s := { s with ui := { s.ui with actionwigdet := false } }
  let s := { s with ui := { s.ui with action_wigdet := false } }
  let s := { s with ui := { s.ui with action_9 := true } }
  let s := { s with ui := { s.ui with action_10 := true } }
  let (midarea, s) ← s.new .QMdiArea .this
  let s := { s with midarea := midarea }
  let (tabwidget, s) ← s.new .QTabWidget .this
  let s := { s with tabwidget := tabwidget }
  let s ← s.setCentralWidget s.midarea
  pure { s with tabsClosable := true }

/-- The slot `MainWindow::on_action_11_triggered`. -/
def MainWindow.on_action_11_triggered (s : MainWindow) : Option MainWindow :=
  let s := if some s.midarea = s.centralWidget then s.qDebug "成功配对！" else s
  s.setCentralWidget s.tabwidget

/-- The slot `MainWindow::on_actionMDI_triggered`. -/
def MainWindow.on_actionMDI_triggered (s : MainWindow) : Option MainWindow :=
  let s := if some s.tabwidget = s.centralWidget then s.qDebug "成功配对2！" else s
  s.setCentralWidget s.midarea

/-- The slot `MainWindow::on_actionwigdet_triggered`. -/
def MainWindow.on_actionwigdet_triggered (s : MainWindow) : Option MainWindow := do
  let (doc, s) ← s.new .FormDoc (.object s.tabwidget)
  let s := s.setAttribute_WA_DeleteOnClose doc
  s.addTab doc "基础窗口"

/-- The slot `MainWindow::on_action_wigdet_triggered`. -/
def MainWindow.on_action_wigdet_triggered (s : MainWindow) : Option MainWindow := do
  let (doc, s) ← s.new .FormDoc .null
  let s := s.setAttribute_WA_DeleteOnClose doc
  let s := s.setWindowTitle doc "widget"
  pure (s.show doc)

/-- The slot `MainWindow::on_action_triggered`. -/
def MainWindow.on_action_triggered (s : MainWindow) : Option MainWindow := do
  let (table, s) ← s.new .TTable (.object s.tabwidget)
  let s := s.setAttribute_WA_DeleteOnClose table
  s.addTab table "表格窗口"

/-- The slot `MainWindow::on_action_13_triggered`. -/
def MainWindow.on_action_13_triggered (s : MainWindow) : Option MainWindow := do
  let (table, s) ← s.new .TTable .null
  let s := s.setAttribute_WA_DeleteOnClose table
  let s := s.setWindowTitle table "tablewidget"
  pure (s.show table)

/-- The slot `MainWindow::on_action_1_triggered`. -/
def MainWindow.on_action_1_triggered (s : MainWindow) : Option MainWindow := do
  let (widget, s) ← s.new .widget_edit .null
  s.addSubWindow widget

/-- The slot that `setupUi` connects to `triggered()` of an action by its name
`on_<action>_triggered`; `action_9` and `action_10` have none in this class. -/
def MainWindow.on_triggered (s : MainWindow) : QAction → Option MainWindow
  | .actionMDI => s.on_actionMDI_triggered
  | .action_11 => s.on_action_11_triggered
  | .actionwigdet => s.on_actionwigdet_triggered
  | .action_wigdet => s.on_action_wigdet_triggered
  | .action => s.on_action_triggered
  | .action_13 => s.on_action_13_triggered
  | .action_1 => s.on_action_1_triggered
  | .action_9 => some s
  | .action_10 => some s

/-- Triggering an action: its own slot runs, and when the action belongs to
`group` the group's `triggered(QAction*)` signal runs `do_show` with it. -/
def MainWindow.trigger (s : MainWindow) (a : QAction) : Option MainWindow := do
  let s ← s.on_triggered a
  pure (if a ∈ s.groupActions then s.do_show a else s)

/-- The event loop deletes one object on which `deleteLater()` was called: the
object and its children are destroyed; a destroyed container takes its tabs or
sub-windows with it, and a destroyed central widget leaves the central slot. -/
def MainWindow.deleteObject (s : MainWindow) (p : Nat) : MainWindow :=
  { s with
    objects := destroy s.objects p
    tabs := if p = s.tabwidget then [] else s.tabs
    subWindowList := if p = s.midarea then [] else s.subWindowList
    centralWidget := if s.centralWidget = some p then none else s.centralWidget }

/-- Back in the event loop: every deferred deletion is carried out. -/
def MainWindow.processDeferredDelete (s : MainWindow) : MainWindow :=
  { s.deferredDelete.foldl MainWindow.deleteObject s with deferredDelete := [] }

/-- What the user can do to the window. -/
inductive Event
  | triggered (a : QAction)
  | tabCloseRequested (index : Int)
  deriving DecidableEq, Repr

/-- One event: an action is triggered, or the tab widget asks to close a tab and
`do_take_tabwidget` runs; when the slots have returned, control is back in the
event loop, which carries out the deferred deletions.  The result is `none` when
a slot used a destroyed object. -/
def MainWindow.step (s : MainWindow) (e : Event) : Option MainWindow := do
  let s ← match e with
    | .triggered a => s.trigger a
    | .tabCloseRequested index => s.do_take_tabwidget index
  pure s.processDeferredDelete

/-- A finite sequence of events. -/
def MainWindow.run (s : MainWindow) : List Event → Option MainWindow
  | [] => some s
  | e :: events => (s.step e).bind (fun t => t.run events)

/-- The program: the constructor runs, then the events arrive one by one. -/
def MainWindow.launch (ui : Ui) (objects : List QObject) (events : List Event) :
    Option MainWindow :=
  (MainWindow.construct ui objects).bind (fun s => s.run events)

/-- The visibilities of MDI mode. -/
def Ui.mdi : Ui :=
  { action := false, action_13 := false, actionwigdet := false, action_wigdet := false,
    action_9 := true, action_10 := true }

/-- The visibilities of Tabbed mode. -/
def Ui.tabbed : Ui :=
  { action := true, action_13 := true, actionwigdet := true, action_wigdet := true,
    action_9 := false, action_10 := false }

/-- A concrete start: `setupUi` left every action visible. -/
def Ui.start : Ui :=
  { action := true, action_13 := true, actionwigdet := true, action_wigdet := true,
    action_9 := true, action_10 := true }

/-- The state the constructor builds from `Ui.start` and an empty store: pointer
`0` is the action group, `1` the MDI area, `2` the tab widget. -/
def MainWindow.sample : MainWindow :=
  { ui := Ui.mdi
    objects :=
      [{ cls := .QActionGroup, parent := .this, deleteOnClose := false, windowTitle := "",
         visible := false, destroyed := false },
       { cls := .QMdiArea, parent := .this, deleteOnClose := false, windowTitle := "",
         visible := false, destroyed := false },
       { cls := .QTabWidget, parent := .this, deleteOnClose := false, windowTitle := "",
         visible := false, destroyed := false }]
    group := 0
    groupActions := [QAction.actionMDI, QAction.action_11]
    midarea := 1
    tabwidget := 2
    centralWidget := some 1
    tabs := []
    tabsClosable := true
    subWindowList := []
    deferredDelete := []
    debug := [] }

/-- A container created by the constructor that is still there: the pointer
refers to a live object whose parent is the main window. -/
def Rooted (objects : List QObject) (p : Nat) : Prop :=
  ∃ o, objects[p]? = some o ∧ o.parent = Parent.this ∧ o.destroyed = false

/-- A dangling pointer: it refers to a destroyed object. -/
def Dead (objects : List QObject) (p : Nat) : Prop :=
  ∃ o, objects[p]? = some o ∧ o.destroyed = true

/-- The mode invariant of the states between events: the group holds the two mode
actions, the two containers are different objects, no deletion is pending, the
tab widget is there, and the window is in MDI mode with the MDI area there, or in
Tabbed mode with the MDI area destroyed. -/
def ModeInv (s : MainWindow) : Prop :=
  s.groupActions = [QAction.actionMDI, QAction.action_11] ∧
  s.midarea ≠ s.tabwidget ∧
  s.deferredDelete = [] ∧
  Rooted s.objects s.tabwidget ∧
  ((s.centralWidget = some s.midarea ∧ s.ui = Ui.mdi ∧ Rooted s.objects s.midarea) ∨
   (s.centralWidget = some s.tabwidget ∧ s.ui = Ui.tabbed ∧ Dead s.objects s.midarea))

end Untitled7_2

namespace Experiment

/-! ## `Experiment/untitled_0/mainwindow.cpp` -/

/-- The classes of the objects the editor window creates with `new`. -/
inductive Class
  | QMdiArea
  | QWidget
  deriving DecidableEq, Repr

/-- An object created with `new`. -/
structure QObject where
  cls : Class
  deleteOnClose : Bool
  visible : Bool
  deriving DecidableEq, Repr

/-- Applies `f` to the object a pointer refers to. -/
def modifyAt (objects : List QObject) (p : Nat) (f : QObject → QObject) : List QObject :=
  match objects[p]? with
  | some o => objects.set p (f o)
  | none => objects

/-- The widget `ui->plainTextEdit`: its own window-modified flag, its overwrite
mode and the modified flag of its document. -/
structure QPlainTextEdit where
  windowModified : Bool
  overwriteMode : Bool
  documentModified : Bool
  deriving DecidableEq, Repr

/-- A pointer to a widget: `ui->plainTextEdit`, or an object created with `new`. -/
inductive WidgetPtr
  | plainTextEdit
  | object (p : Nat)
  deriving DecidableEq, Repr

/-- The state of the editor window.  `subWindowList` belongs to the object
`midarea` points to; `debug` collects the `qDebug` lines. -/
structure MainWindow where
  windowModified : Bool
  plainTextEdit : QPlainTextEdit
  objects : List QObject
  midarea : Nat
  winodw : Nat
  centralWidget : Option WidgetPtr
  subWindowList : List Nat
  debug : List String
  deriving DecidableEq, Repr

/-- The expression `new C`. -/
def MainWindow.new (s : MainWindow) (cls : Class) : Nat × MainWindow :=
  (s.objects.length,
    { s with objects := s.objects ++ [{ cls := cls, deleteOnClose := false, visible := false }] })

/-- The call `qDebug(line)`. -/
def MainWindow.qDebug (s : MainWindow) (line : String) : MainWindow :=
  { s with debug := s.debug ++ [line] }

/-- The text `qDebug() << b` prints for a `bool`. -/
def boolText (b : Bool) : String := if b then "true" else "false"

/-- The call `midarea->addSubWindow(widget)`. -/
def MainWindow.addSubWindow (s : MainWindow) (widget : Nat) : MainWindow :=
  { s with subWindowList := s.subWindowList ++ [widget] }

/-- The call `w->show()`. -/
def MainWindow.show (s : MainWindow) (w : Nat) : MainWindow :=
  { s with objects := modifyAt s.objects w (fun o => { o with visible := true }) }

/-- The call `this->setWindowModified(b)`. -/
def MainWindow.setWindowModified (s : MainWindow) (b : Bool) : MainWindow :=
  { s with windowModified := b }

/-- The slot `MainWindow::do_show`. -/
def MainWindow.do_show (s : MainWindow) (_b : Bool) : MainWindow :=
  let s := s.qDebug "文本信号："
  s.qDebug (boolText s.plainTextEdit.windowModified)

/-- The signal `modificationChanged(bool)` of `ui->plainTextEdit`: the two slots
the constructor connects to it run in the order of connection. -/
def MainWindow.modificationChanged (s : MainWindow) (b : Bool) : MainWindow :=
  let s := s.setWindowModified b
  s.do_show b

/-- The call `ui->plainTextEdit->document()->setModified(m)`: the flag is written
and `modificationChanged(m)` emitted only when the flag changes. -/
def MainWindow.document_setModified (s : MainWindow) (m : Bool) : MainWindow :=
  if s.plainTextEdit.documentModified = m then s
  else
    let s := { s with plainTextEdit := { s.plainTextEdit with documentModified := m } }
    s.modificationChanged m

/-- The constructor `MainWindow::MainWindow` (the name is taken by the type), run
on what `setupUi` left: the window's modified flag, the text widget and the
objects created so far.  The two `connect` calls are
`MainWindow.modificationChanged`. -/
def MainWindow.construct (windowModified : Bool) (plainTextEdit : QPlainTextEdit)
    (objects : List QObject) : MainWindow :=
  let s : MainWindow :=
    { windowModified := windowModified, plainTextEdit := plainTextEdit, objects := objects,
      midarea := 0, winodw := 0, centralWidget := none, subWindowList := [], debug := [] }
  let (midarea, s) := s.new .QMdiArea
  let s := { s with midarea := midarea }
  let s := { s with centralWidget := some WidgetPtr.plainTextEdit }
  let (winodw, s) := s.new .QWidget
  let s := { s with winodw := winodw }
  let s := s.addSubWindow s.winodw
  let s := { s with objects := modifyAt s.objects s.midarea
                      (fun o => { o with deleteOnClose := true }) }
  let s := s.qDebug "开始信号"
  s.qDebug (boolText s.plainTextEdit.windowModified)

/-- The slot `MainWindow::on_actionsadsd_triggered`. -/
def MainWindow.on_actionsadsd_triggered (s : MainWindow) : MainWindow :=
  let (winodw, s) := s.new .QWidget
  let s := { s with winodw := winodw }
  let s := s.addSubWindow s.winodw
  let s := s.show s.winodw
  let s := s.setWindowModified false
  let s := { s with plainTextEdit := { s.plainTextEdit with overwriteMode := false } }
  let s := { s with plainTextEdit := { s.plainTextEdit with windowModified := true } }
  let s := s.qDebug "点击信号"
  let s := s.qDebug (boolText s.plainTextEdit.windowModified)
  s.document_setModified false

/-- A concrete editor: the document and the window are marked modified and the
text widget is in overwrite mode. -/
def MainWindow.sample : MainWindow :=
  MainWindow.construct true
    { windowModified := false, overwriteMode := true, documentModified := true } []

end Experiment

namespace SlotSignal

/-! ### Properties of the style dialog -/

theorem lastClicked_append_singleton (cb : CheckBox) (cs : List (CheckBox × Bool))
    (c : CheckBox × Bool) :
    lastClicked cb (cs ++ [c]) = if c.1 = cb then some c.2 else lastClicked cb cs := by
  unfold lastClicked clicksOn
  by_cases h : c.1 = cb
  · simp [List.filter_append, h]
  · simp [List.filter_append, h]

theorem Dialog.clicks_append_singleton (d : Dialog) (cs : List (CheckBox × Bool))
    (c : CheckBox × Bool) :
    d.clicks (cs ++ [c]) = (d.clicks cs).clicked c.1 c.2 := by
  simp [Dialog.clicks, List.foldl_append]

/-- The state after a click sequence, written out field by field. -/
theorem Dialog.clicks_eq (d : Dialog) (cs : List (CheckBox × Bool)) :
    d.clicks cs =
      { d with txtEdit := { d.txtEdit with font := { d.txtEdit.font with
          underline := (lastClicked .chekcbokunder cs).getD d.txtEdit.font.underline
          italic := (lastClicked .chekcbokitalic cs).getD d.txtEdit.font.italic
          bold := (lastClicked .chekcboxbold cs).getD d.txtEdit.font.bold } } } := by
  induction cs using List.reverseRecOn with
  | nil => simp [Dialog.clicks, lastClicked, clicksOn]
  | append_singleton cs c ih =>
    rw [Dialog.clicks_append_singleton, ih]
    simp only [lastClicked_append_singleton]
    obtain ⟨cb, b⟩ := c
    cases cb <;>
      simp [Dialog.clicked, Dialog.do_chkcbokunder, Dialog.do_checbokitalic,
        Dialog.do_checbokboxdold, QPlainTextEdit.setFont, QFont.setUnderline,
        QFont.setItalic, QFont.setBold]

end SlotSignal

namespace SlotSignal

/-- C1. Last write wins: after any finite sequence of check-box clicks on any
dialog, the underline, italic and bold values of the font are the booleans of the
last click on the matching check box, or the initial values when that box was
never clicked; hence two sequences that agree on the clicks of each box, however
interleaved, end in the same dialog state. -/
theorem Dialog.clicks_last_write_wins (d : Dialog) (cs : List (CheckBox × Bool)) :
    ((d.clicks cs).txtEdit.font.underline
        = (lastClicked .chekcbokunder cs).getD d.txtEdit.font.underline ∧
     (d.clicks cs).txtEdit.font.italic
        = (lastClicked .chekcbokitalic cs).getD d.txtEdit.font.italic ∧
     (d.clicks cs).txtEdit.font.bold
        = (lastClicked .chekcboxbold cs).getD d.txtEdit.font.bold) ∧
    ∀ cs' : List (CheckBox × Bool),
      (∀ cb, clicksOn cb cs' = clicksOn cb cs) → d.clicks cs' = d.clicks cs := by
  refine ⟨?_, ?_⟩
  · rw [Dialog.clicks_eq]
    exact ⟨rfl, rfl, rfl⟩
  · intro cs' h
    rw [Dialog.clicks_eq d cs', Dialog.clicks_eq d cs]
    simp only [lastClicked, h]

/-- Witness for C1: the same clicks on the underline box, with the click on the
bold box moved in front of them, give the same dialog. -/
theorem Dialog.clicks_last_write_wins_witness :
    Dialog.sample.clicks
        [(.chekcboxbold, true), (.chekcbokunder, true), (.chekcbokunder, false)] =
      Dialog.sample.clicks
        [(.chekcbokunder, true), (.chekcboxbold, true), (.chekcbokunder, false)] :=
  (Dialog.clicks_last_write_wins Dialog.sample
      [(.chekcbokunder, true), (.chekcboxbold, true), (.chekcbokunder, false)]).2
    [(.chekcboxbold, true), (.chekcbokunder, true), (.chekcbokunder, false)]
    (by intro cb; cases cb <;> decide)

/-- C2. Idempotence: on every dialog, each style handler (the three check-box
slots with a given boolean, and `do_setFontColor`, which leaves the radio buttons
as they are) run twice in a row gives the state it gives when run once. -/
theorem Dialog.handlers_idempotent (d : Dialog) (checked : Bool) :
    (d.do_chkcbokunder checked).do_chkcbokunder checked = d.do_chkcbokunder checked ∧
    (d.do_checbokitalic checked).do_checbokitalic checked = d.do_checbokitalic checked ∧
    (d.do_checbokboxdold checked).do_checbokboxdold checked
      = d.do_checbokboxdold checked ∧
    d.do_setFontColor.do_setFontColor = d.do_setFontColor ∧
    (d.do_setFontColor.radioblack = d.radioblack ∧
      d.do_setFontColor.radiobule = d.radiobule ∧
      d.do_setFontColor.radiorad = d.radiorad) := by
  refine ⟨rfl, rfl, rfl, ?_, rfl, rfl, rfl⟩
  simp only [Dialog.do_setFontColor, QPlainTextEdit.setPalette, QPalette.setColor]
  split_ifs <;> rfl

/-- C10. Colour choice and frame: `do_setFontColor` sets the text colour to black
when the black radio button is checked, else blue when the blue one is, else red
when the red one is, else green, and changes neither the font, nor the text, nor
the radio buttons, nor the other palette roles; the three check-box slots leave
the palette, the pixel size and the text as they are; `do_btncancel` empties the
text and leaves font and palette as they are. -/
theorem Dialog.colour_choice_frame (d : Dialog) (b : Bool) :
    (d.do_setFontColor.txtEdit.palette.text =
        (if d.radioblack then QColor.global .black
         else if d.radiobule then QColor.global .blue
         else if d.radiorad then QColor.global .red
         else QColor.global .green) ∧
      d.do_setFontColor.txtEdit.font = d.txtEdit.font ∧
      d.do_setFontColor.txtEdit.plainText = d.txtEdit.plainText ∧
      d.do_setFontColor.txtEdit.palette.windowText = d.txtEdit.palette.windowText ∧
      d.do_setFontColor.txtEdit.palette.base = d.txtEdit.palette.base ∧
      d.do_setFontColor.radioblack = d.radioblack ∧
      d.do_setFontColor.radiobule = d.radiobule ∧
      d.do_setFontColor.radiorad = d.radiorad) ∧
    ((d.do_chkcbokunder b).txtEdit.palette = d.txtEdit.palette ∧
      (d.do_chkcbokunder b).txtEdit.font.pixelSize = d.txtEdit.font.pixelSize ∧
      (d.do_chkcbokunder b).txtEdit.plainText = d.txtEdit.plainText) ∧
    ((d.do_checbokitalic b).txtEdit.palette = d.txtEdit.palette ∧
      (d.do_checbokitalic b).txtEdit.font.pixelSize = d.txtEdit.font.pixelSize ∧
      (d.do_checbokitalic b).txtEdit.plainText = d.txtEdit.plainText) ∧
    ((d.do_checbokboxdold b).txtEdit.palette = d.txtEdit.palette ∧
      (d.do_checbokboxdold b).txtEdit.font.pixelSize = d.txtEdit.font.pixelSize ∧
      (d.do_checbokboxdold b).txtEdit.plainText = d.txtEdit.plainText) ∧
    (d.do_btncancel.txtEdit.plainText = "" ∧
      d.do_btncancel.txtEdit.font = d.txtEdit.font ∧
      d.do_btncancel.txtEdit.palette = d.txtEdit.palette) := by
  refine ⟨?_, ⟨rfl, rfl, rfl⟩, ⟨rfl, rfl, rfl⟩, ⟨rfl, rfl, rfl⟩, ⟨rfl, rfl, rfl⟩⟩
  simp only [Dialog.do_setFontColor, QPlainTextEdit.setPalette, QPalette.setColor]
  split_ifs <;> simp

end SlotSignal

namespace Experiment

/-! ### Properties of the editor window -/

/-- C9. On every editor state, after `on_actionsadsd_triggered` the document's
modified flag and the main window's modified flag are false, overwrite mode is
off, and the MDI area holds exactly one more sub-window than before. -/
theorem MainWindow.on_actionsadsd_triggered_resets (s : MainWindow) :
    s.on_actionsadsd_triggered.plainTextEdit.documentModified = false ∧
    s.on_actionsadsd_triggered.windowModified = false ∧
    s.on_actionsadsd_triggered.plainTextEdit.overwriteMode = false ∧
    s.on_actionsadsd_triggered.subWindowList.length = s.subWindowList.length + 1 := by
  simp only [MainWindow.on_actionsadsd_triggered, MainWindow.new, MainWindow.addSubWindow,
    MainWindow.show, MainWindow.setWindowModified, MainWindow.qDebug,
    MainWindow.document_setModified, MainWindow.modificationChanged, MainWindow.do_show]
  cases hm : s.plainTextEdit.documentModified <;> simp

end Experiment

namespace Untitled7_2

/-! ### The object store -/

theorem modifyAt_getElem?_ne (objects : List QObject) {p q : Nat} (f : QObject → QObject)
    (h : q ≠ p) : (modifyAt objects q f)[p]? = objects[p]? := by
  unfold modifyAt
  split
  · exact List.getElem?_set_ne h
  · rfl

theorem modifyAt_getElem?_self (objects : List QObject) (p : Nat) (f : QObject → QObject) :
    (modifyAt objects p f)[p]? = (objects[p]?).map f := by
  unfold modifyAt
  cases h : objects[p]? with
  | none => simp [h]
  | some o =>
    have hp : p < objects.length := (List.getElem?_eq_some.mp h).1
    simp [List.getElem?_set_self, hp]

theorem modifyAt_append_one (l : List QObject) (o : QObject) (f : QObject → QObject) :
    modifyAt (l ++ [o]) l.length f = l ++ [f o] := by
  unfold modifyAt
  simp

theorem modifyAt_append_two_fst (l : List QObject) (a b : QObject) (f : QObject → QObject) :
    modifyAt (l ++ [a, b]) l.length f = l ++ [f a, b] := by
  have h : (l ++ [a, b])[l.length]? = some a := by
    rw [List.getElem?_append_right (Nat.le_refl _), Nat.sub_self]
    rfl
  unfold modifyAt
  rw [h]
  simp

theorem modifyAt_append_two_snd (l : List QObject) (a b : QObject) (f : QObject → QObject) :
    modifyAt (l ++ [a, b]) (l.length + 1) f = l ++ [a, f b] := by
  have h : l ++ [a, b] = (l ++ [a]) ++ [b] := by simp
  have hl : l.length + 1 = (l ++ [a]).length := by simp
  rw [h, hl, modifyAt_append_one]
  simp

theorem Rooted.alive {objects : List QObject} {p : Nat} (h : Rooted objects p) :
    aliveIn objects p = true := by
  obtain ⟨o, ho, _, hd⟩ := h
  simp [aliveIn, ho, hd]

theorem Dead.not_alive {objects : List QObject} {p : Nat} (h : Dead objects p) :
    aliveIn objects p = false := by
  obtain ⟨o, ho, hd⟩ := h
  simp [aliveIn, ho, hd]

theorem Rooted.lt {objects : List QObject} {p : Nat} (h : Rooted objects p) :
    p < objects.length := by
  obtain ⟨o, ho, _, _⟩ := h
  exact (List.getElem?_eq_some.mp ho).1

theorem Dead.index_lt {objects : List QObject} {p : Nat} (h : Dead objects p) :
    p < objects.length := by
  obtain ⟨o, ho, _⟩ := h
  exact (List.getElem?_eq_some.mp ho).1

theorem Rooted.append {objects : List QObject} {p : Nat} (h : Rooted objects p)
    (l : List QObject) : Rooted (objects ++ l) p := by
  have hp := h.lt
  obtain ⟨o, ho, h1, h2⟩ := h
  exact ⟨o, by rw [List.getElem?_append_left hp, ho], h1, h2⟩

theorem Dead.append_right {objects : List QObject} {p : Nat} (h : Dead objects p)
    (l : List QObject) : Dead (objects ++ l) p := by
  have hp := h.index_lt
  obtain ⟨o, ho, h1⟩ := h
  exact ⟨o, by rw [List.getElem?_append_left hp, ho], h1⟩

theorem aliveIn_append {objects : List QObject} {p : Nat} (h : aliveIn objects p = true)
    (l : List QObject) : aliveIn (objects ++ l) p = true := by
  unfold aliveIn at h ⊢
  cases ho : objects[p]? with
  | none => simp [ho] at h
  | some o =>
    have hp : p < objects.length := (List.getElem?_eq_some.mp ho).1
    rw [List.getElem?_append_left hp, ho]
    simpa [ho] using h

theorem Rooted.modifyAt_ne {objects : List QObject} {p q : Nat} (h : Rooted objects p)
    (f : QObject → QObject) (hq : q ≠ p) : Rooted (modifyAt objects q f) p := by
  obtain ⟨o, ho, h1, h2⟩ := h
  exact ⟨o, by rw [modifyAt_getElem?_ne _ f hq, ho], h1, h2⟩

theorem Rooted.modifyAt_self {objects : List QObject} {p : Nat} (h : Rooted objects p)
    (f : QObject → QObject) (hf : ∀ o, (f o).parent = o.parent ∧ (f o).destroyed = o.destroyed) :
    Rooted (modifyAt objects p f) p := by
  obtain ⟨o, ho, h1, h2⟩ := h
  exact ⟨f o, by rw [modifyAt_getElem?_self, ho]; rfl, by rw [(hf o).1, h1],
    by rw [(hf o).2, h2]⟩

theorem Rooted.sweep {objects : List QObject} {p : Nat} (h : Rooted objects p) :
    Rooted (sweep objects) p := by
  obtain ⟨o, ho, h1, h2⟩ := h
  refine ⟨o, ?_, h1, h2⟩
  simp only [Untitled7_2.sweep, List.getElem?_map, ho, Option.map_some', h1]

theorem Dead.sweep_dead {objects : List QObject} {p : Nat} (h : Dead objects p) :
    Dead (sweep objects) p := by
  obtain ⟨o, ho, h1⟩ := h
  simp only [Dead, Untitled7_2.sweep, List.getElem?_map, ho, Option.map_some']
  refine ⟨_, rfl, ?_⟩
  cases hp : o.parent with
  | null => simpa using h1
  | this => simpa using h1
  | object q =>
    simp only
    split_ifs
    · rfl
    · exact h1

theorem Rooted.sweepN {objects : List QObject} {p : Nat} (h : Rooted objects p) (n : Nat) :
    Rooted (sweepN n objects) p := by
  induction n generalizing objects with
  | zero => exact h
  | succ n ih => exact ih h.sweep

theorem Dead.sweepN_dead {objects : List QObject} {p : Nat} (h : Dead objects p) (n : Nat) :
    Dead (sweepN n objects) p := by
  induction n generalizing objects with
  | zero => exact h
  | succ n ih => exact ih h.sweep_dead

theorem Rooted.destroy_ne {objects : List QObject} {p q : Nat} (h : Rooted objects p)
    (hq : q ≠ p) : Rooted (destroy objects q) p :=
  (h.modifyAt_ne _ hq).sweepN _

theorem Rooted.destroy_self {objects : List QObject} {p : Nat} (h : Rooted objects p) :
    Dead (destroy objects p) p := by
  unfold Untitled7_2.destroy
  apply Dead.sweepN_dead
  obtain ⟨o, ho, _, _⟩ := h
  exact ⟨_, by rw [modifyAt_getElem?_self, ho]; rfl, rfl⟩

/-! ### The slots, written out -/

theorem MainWindow.on_actionwigdet_triggered_eq (s : MainWindow)
    (h : aliveIn s.objects s.tabwidget = true) :
    s.on_actionwigdet_triggered = some { s with
      objects := s.objects ++
        [{ cls := .FormDoc, parent := .object s.tabwidget, deleteOnClose := true,
           windowTitle := "", visible := false, destroyed := false }]
      tabs := s.tabs ++ [(s.objects.length, "基础窗口")] } := by
  simp [MainWindow.on_actionwigdet_triggered, MainWindow.new, MainWindow.alive, h,
    MainWindow.setAttribute_WA_DeleteOnClose, MainWindow.addTab, modifyAt_append_one,
    aliveIn_append h]

theorem MainWindow.on_action_triggered_eq (s : MainWindow)
    (h : aliveIn s.objects s.tabwidget = true) :
    s.on_action_triggered = some { s with
      objects := s.objects ++
        [{ cls := .TTable, parent := .object s.tabwidget, deleteOnClose := true,
           windowTitle := "", visible := false, destroyed := false }]
      tabs := s.tabs ++ [(s.objects.length, "表格窗口")] } := by
  simp [MainWindow.on_action_triggered, MainWindow.new, MainWindow.alive, h,
    MainWindow.setAttribute_WA_DeleteOnClose, MainWindow.addTab, modifyAt_append_one,
    aliveIn_append h]

theorem MainWindow.on_action_wigdet_triggered_eq (s : MainWindow) :
    s.on_action_wigdet_triggered = some { s with
      objects := s.objects ++
        [{ cls := .FormDoc, parent := .null, deleteOnClose := true,
           windowTitle := "widget", visible := true, destroyed := false }] } := by
  simp [MainWindow.on_action_wigdet_triggered, MainWindow.new,
    MainWindow.setAttribute_WA_DeleteOnClose, MainWindow.setWindowTitle, MainWindow.show,
    modifyAt_append_one]

theorem MainWindow.on_action_13_triggered_eq (s : MainWindow) :
    s.on_action_13_triggered = some { s with
      objects := s.objects ++
        [{ cls := .TTable, parent := .null, deleteOnClose := true,
           windowTitle := "tablewidget", visible := true, destroyed := false }] } := by
  simp [MainWindow.on_action_13_triggered, MainWindow.new,
    MainWindow.setAttribute_WA_DeleteOnClose, MainWindow.setWindowTitle, MainWindow.show,
    modifyAt_append_one]

theorem MainWindow.on_action_1_triggered_eq (s : MainWindow)
    (h : aliveIn s.objects s.midarea = true) :
    s.on_action_1_triggered = some { s with
      objects := s.objects ++
        [{ cls := .widget_edit, parent := .object (s.objects.length + 1),
           deleteOnClose := false, windowTitle := "", visible := false, destroyed := false },
         { cls := .QMdiSubWindow, parent := .object s.midarea, deleteOnClose := true,
           windowTitle := "", visible := false, destroyed := false }]
      subWindowList := s.subWindowList ++ [s.objects.length + 1] } := by
  simp [MainWindow.on_action_1_triggered, MainWindow.new, MainWindow.alive,
    MainWindow.addSubWindow, MainWindow.setAttribute_WA_DeleteOnClose,
    modifyAt_append_two_fst, modifyAt_append_two_snd, aliveIn_append h]

theorem MainWindow.on_action_1_triggered_dead (s : MainWindow)
    (h : Dead s.objects s.midarea) : s.on_action_1_triggered = none := by
  simp [MainWindow.on_action_1_triggered, MainWindow.new, MainWindow.alive,
    MainWindow.addSubWindow, (h.append_right _).not_alive]

theorem MainWindow.setCentralWidget_same (s : MainWindow) (w : Nat)
    (hc : s.centralWidget = some w) (h : aliveIn s.objects w = true) :
    s.setCentralWidget w = some s := by
  simp [MainWindow.setCentralWidget, MainWindow.alive, h, hc]

theorem MainWindow.setCentralWidget_switch (s : MainWindow) (old w : Nat)
    (hc : s.centralWidget = some old) (hne : old ≠ w) (h : aliveIn s.objects w = true)
    (ho : aliveIn s.objects old = true) :
    s.setCentralWidget w = some { s with
      objects := modifyAt s.objects old (fun o => { o with visible := false })
      deferredDelete := s.deferredDelete ++ [old]
      centralWidget := some w } := by
  simp [MainWindow.setCentralWidget, MainWindow.alive, h, hc, hne, ho]

theorem MainWindow.setCentralWidget_dead (s : MainWindow) (w : Nat)
    (h : aliveIn s.objects w = false) : s.setCentralWidget w = none := by
  simp [MainWindow.setCentralWidget, MainWindow.alive, h]

theorem MainWindow.on_actionMDI_triggered_dead (s : MainWindow)
    (h : Dead s.objects s.midarea) : s.on_actionMDI_triggered = none := by
  unfold MainWindow.on_actionMDI_triggered
  split_ifs
  · exact MainWindow.setCentralWidget_dead _ _ h.not_alive
  · exact MainWindow.setCentralWidget_dead _ _ h.not_alive

theorem MainWindow.construct_eq (ui : Ui) (objects : List QObject) :
    MainWindow.construct ui objects = some
      { ui := Ui.mdi
        objects := objects ++
          [{ cls := .QActionGroup, parent := .this, deleteOnClose := false,
             windowTitle := "", visible := false, destroyed := false },
           { cls := .QMdiArea, parent := .this, deleteOnClose := false,
             windowTitle := "", visible := false, destroyed := false },
           { cls := .QTabWidget, parent := .this, deleteOnClose := false,
             windowTitle := "", visible := false, destroyed := false }]
        group := objects.length
        groupActions := [QAction.actionMDI, QAction.action_11]
        midarea := objects.length + 1
        tabwidget := objects.length + 2
        centralWidget := some (objects.length + 1)
        tabs := []
        tabsClosable := true
        subWindowList := []
        deferredDelete := []
        debug := [] } := by
  have h : aliveIn (objects ++
      [{ cls := .QActionGroup, parent := .this, deleteOnClose := false,
         windowTitle := "", visible := false, destroyed := false },
       { cls := .QMdiArea, parent := .this, deleteOnClose := false,
         windowTitle := "", visible := false, destroyed := false },
       { cls := Class.QTabWidget, parent := Parent.this, deleteOnClose := false,
         windowTitle := "", visible := false, destroyed := false }])
      (objects.length + 1) = true := by
    unfold aliveIn
    rw [List.getElem?_append_right (Nat.le_add_right _ _), Nat.add_sub_cancel_left]
    rfl
  simp [MainWindow.construct, MainWindow.new, MainWindow.setCentralWidget,
    MainWindow.alive, h, Ui.mdi]

/-! ### The mode invariant -/

theorem getElem?_append_add (l r : List QObject) (k : Nat) :
    (l ++ r)[l.length + k]? = r[k]? := by
  rw [List.getElem?_append_right (Nat.le_add_right _ _), Nat.add_sub_cancel_left]

theorem MainWindow.processDeferredDelete_nil (s : MainWindow) (h : s.deferredDelete = []) :
    s.processDeferredDelete = s := by
  cases s
  simp_all [MainWindow.processDeferredDelete]

theorem ModeInv.extend {s t : MainWindow} (h : ModeInv s) (l : List QObject)
    (hg : t.groupActions = s.groupActions) (hm : t.midarea = s.midarea)
    (ht : t.tabwidget = s.tabwidget) (hd : t.deferredDelete = [])
    (hc : t.centralWidget = s.centralWidget) (hu : t.ui = s.ui)
    (ho : t.objects = s.objects ++ l) : ModeInv t := by
  obtain ⟨h1, h2, _, h4, h5⟩ := h
  refine ⟨by rw [hg, h1], by rw [hm, ht]; exact h2, hd, by rw [ho, ht]; exact h4.append l, ?_⟩
  rw [hc, hu, hm, ht, ho]
  rcases h5 with ⟨a, b, c⟩ | ⟨a, b, c⟩
  · exact Or.inl ⟨a, b, c.append l⟩
  · exact Or.inr ⟨a, b, c.append_right l⟩

theorem ModeInv.construct (ui : Ui) (objects : List QObject) :
    ∃ s, MainWindow.construct ui objects = some s ∧ ModeInv s ∧
      s.centralWidget = some s.midarea ∧ s.ui = Ui.mdi := by
  refine ⟨_, MainWindow.construct_eq ui objects, ⟨rfl, by simp, rfl, ?_, Or.inl ⟨rfl, rfl, ?_⟩⟩,
    rfl, rfl⟩
  · exact ⟨_, getElem?_append_add objects _ 2, rfl, rfl⟩
  · exact ⟨_, getElem?_append_add objects _ 1, rfl, rfl⟩

theorem MainWindow.step_triggered (s : MainWindow) (a : QAction) :
    s.step (.triggered a) = (s.trigger a).map MainWindow.processDeferredDelete := by
  simp only [MainWindow.step]
  cases s.trigger a <;> rfl

theorem MainWindow.step_tabCloseRequested (s : MainWindow) (index : Int) :
    s.step (.tabCloseRequested index)
      = (s.do_take_tabwidget index).map MainWindow.processDeferredDelete := by
  simp only [MainWindow.step]
  cases s.do_take_tabwidget index <;> rfl

theorem MainWindow.trigger_eq (s : MainWindow) (a : QAction) :
    s.trigger a
      = (s.on_triggered a).map (fun t => if a ∈ t.groupActions then t.do_show a else t) := by
  simp only [MainWindow.trigger]
  cases s.on_triggered a <;> rfl

/-- In MDI mode a trigger of `action_11` gives Tabbed mode with the MDI area
destroyed. -/
theorem ModeInv.step_action_11_mdi {s : MainWindow} (h : ModeInv s)
    (hc : s.centralWidget = some s.midarea) (hr : Rooted s.objects s.midarea) :
    ∃ t, s.step (.triggered .action_11) = some t ∧ ModeInv t ∧
      t.centralWidget = some t.tabwidget ∧ Dead t.objects t.midarea ∧
      t.subWindowList = [] ∧ t.midarea = s.midarea ∧ t.tabwidget = s.tabwidget := by
  obtain ⟨h1, h2, h3, h4, _⟩ := h
  have hsw := MainWindow.setCentralWidget_switch (s.qDebug "成功配对！") s.midarea s.tabwidget
    hc h2 h4.alive hr.alive
  have hstep : s.step (.triggered .action_11) = some
      { s with
        ui := Ui.tabbed
        objects := destroy (modifyAt s.objects s.midarea (fun o => { o with visible := false }))
          s.midarea
        centralWidget := some s.tabwidget
        tabs := s.tabs
        subWindowList := []
        deferredDelete := []
        debug := s.debug ++ ["成功配对！"] } := by
    rw [MainWindow.step_triggered, MainWindow.trigger_eq]
    simp only [MainWindow.on_triggered, MainWindow.on_action_11_triggered, hc, if_true]
    rw [show (s.qDebug "成功配对！").tabwidget = s.tabwidget from rfl, hsw]
    simp [MainWindow.qDebug, h1, h3, MainWindow.do_show, MainWindow.processDeferredDelete,
      MainWindow.deleteObject, h2, Ui.tabbed]
    intro h
    exact absurd h.symm h2
  refine ⟨_, hstep, ⟨h1, h2, rfl, ?_, Or.inr ⟨rfl, rfl, ?_⟩⟩, rfl, ?_, rfl, rfl, rfl⟩
  · exact (h4.modifyAt_ne _ h2).destroy_ne h2
  · exact (hr.modifyAt_self (fun o => { o with visible := false })
      (fun _ => ⟨rfl, rfl⟩)).destroy_self
  · exact (hr.modifyAt_self (fun o => { o with visible := false })
      (fun _ => ⟨rfl, rfl⟩)).destroy_self

theorem ModeInv.of_step {s s' t : MainWindow} (h : ModeInv s) (l : List QObject)
    (hs : some s'.processDeferredDelete = some t)
    (hg : s'.groupActions = s.groupActions) (hm : s'.midarea = s.midarea)
    (ht : s'.tabwidget = s.tabwidget) (hd : s'.deferredDelete = s.deferredDelete)
    (hc : s'.centralWidget = s.centralWidget) (hu : s'.ui = s.ui)
    (ho : s'.objects = s.objects ++ l) :
    ModeInv t ∧ t = s' := by
  have hd' : s'.deferredDelete = [] := by rw [hd]; exact h.2.2.1
  rw [MainWindow.processDeferredDelete_nil _ hd'] at hs
  have ht' : t = s' := (Option.some.inj hs).symm
  subst ht'
  exact ⟨h.extend l hg hm ht hd' hc hu ho, rfl⟩

theorem MainWindow.on_actionMDI_triggered_mdi (s : MainWindow) (h2 : s.midarea ≠ s.tabwidget)
    (hc : s.centralWidget = some s.midarea) (hr : Rooted s.objects s.midarea) :
    s.on_actionMDI_triggered = some s := by
  have hn : ¬ (some s.tabwidget = s.centralWidget) := by
    rw [hc]; intro h; exact h2 (Option.some.inj h).symm
  simp only [MainWindow.on_actionMDI_triggered, hn, if_false]
  exact MainWindow.setCentralWidget_same s s.midarea hc hr.alive

theorem MainWindow.on_action_11_triggered_tabbed (s : MainWindow)
    (h2 : s.midarea ≠ s.tabwidget) (hc : s.centralWidget = some s.tabwidget)
    (hr : Rooted s.objects s.tabwidget) :
    s.on_action_11_triggered = some s := by
  have hn : ¬ (some s.midarea = s.centralWidget) := by
    rw [hc]; intro h; exact h2 (Option.some.inj h)
  simp only [MainWindow.on_action_11_triggered, hn, if_false]
  exact MainWindow.setCentralWidget_same s s.tabwidget hc hr.alive

theorem ModeInv.step {s t : MainWindow} (h : ModeInv s) (e : Event)
    (ht : s.step e = some t) : ModeInv t := by
  have h' := h
  obtain ⟨h1, h2, h3, h4, h5⟩ := h
  cases e with
  | tabCloseRequested index =>
    rw [MainWindow.step_tabCloseRequested] at ht
    simp only [MainWindow.do_take_tabwidget, MainWindow.removeTab, MainWindow.alive,
      h4.alive, if_true] at ht
    split_ifs at ht
    · rw [Option.map_some'] at ht
      exact (h'.of_step [] ht rfl rfl rfl rfl rfl rfl (by simp)).1
    · rw [Option.map_some'] at ht
      exact (h'.of_step [] ht rfl rfl rfl rfl rfl rfl (by simp)).1
  | triggered a =>
    rw [MainWindow.step_triggered, MainWindow.trigger_eq] at ht
    cases a with
    | action_9 =>
      simp only [MainWindow.on_triggered, Option.map_some', h1, List.mem_cons, List.mem_singleton,
        List.not_mem_nil, reduceCtorEq, or_false, or_self, or_true, true_or, if_false,
        if_true] at ht
      exact (h'.of_step [] ht rfl rfl rfl rfl rfl rfl (by simp)).1
    | action_10 =>
      simp only [MainWindow.on_triggered, Option.map_some', h1, List.mem_cons, List.mem_singleton,
        List.not_mem_nil, reduceCtorEq, or_false, or_self, or_true, true_or, if_false,
        if_true] at ht
      exact (h'.of_step [] ht rfl rfl rfl rfl rfl rfl (by simp)).1
    | actionwigdet =>
      simp only [MainWindow.on_triggered, MainWindow.on_actionwigdet_triggered_eq s h4.alive,
        Option.map_some', h1, List.mem_cons, List.mem_singleton,
        List.not_mem_nil, reduceCtorEq, or_false, or_self, or_true, true_or, if_false,
        if_true] at ht
      exact (h'.of_step _ ht h1.symm rfl rfl rfl rfl rfl rfl).1
    | action =>
      simp only [MainWindow.on_triggered, MainWindow.on_action_triggered_eq s h4.alive,
        Option.map_some', h1, List.mem_cons, List.mem_singleton,
        List.not_mem_nil, reduceCtorEq, or_false, or_self, or_true, true_or, if_false,
        if_true] at ht
      exact (h'.of_step _ ht h1.symm rfl rfl rfl rfl rfl rfl).1
    | action_wigdet =>
      simp only [MainWindow.on_triggered, MainWindow.on_action_wigdet_triggered_eq,
        Option.map_some', h1, List.mem_cons, List.mem_singleton,
        List.not_mem_nil, reduceCtorEq, or_false, or_self, or_true, true_or, if_false,
        if_true] at ht
      exact (h'.of_step _ ht h1.symm rfl rfl rfl rfl rfl rfl).1
    | action_13 =>
      simp only [MainWindow.on_triggered, MainWindow.on_action_13_triggered_eq,
        Option.map_some', h1, List.mem_cons, List.mem_singleton,
        List.not_mem_nil, reduceCtorEq, or_false, or_self, or_true, true_or, if_false,
        if_true] at ht
      exact (h'.of_step _ ht h1.symm rfl rfl rfl rfl rfl rfl).1
    | action_1 =>
      rcases h5 with ⟨_, _, hr⟩ | ⟨_, _, hd⟩
      · simp only [MainWindow.on_triggered, MainWindow.on_action_1_triggered_eq s hr.alive,
          Option.map_some', h1, List.mem_cons, List.mem_singleton,
        List.not_mem_nil, reduceCtorEq, or_false, or_self, or_true, true_or, if_false,
        if_true] at ht
        exact (h'.of_step _ ht h1.symm rfl rfl rfl rfl rfl rfl).1
      · simp [MainWindow.on_triggered, MainWindow.on_action_1_triggered_dead s hd] at ht
    | actionMDI =>
      rcases h5 with ⟨hc, hu, hr⟩ | ⟨_, _, hd⟩
      · simp only [MainWindow.on_triggered, MainWindow.on_actionMDI_triggered_mdi s h2 hc hr,
          Option.map_some', h1, List.mem_cons, List.mem_singleton,
        List.not_mem_nil, reduceCtorEq, or_false, or_self, or_true, true_or, if_false,
        if_true] at ht
        refine (h'.of_step [] ht rfl rfl rfl rfl rfl ?_ (by simp [MainWindow.do_show])).1
        simp [MainWindow.do_show, hu, Ui.mdi]
      · simp [MainWindow.on_triggered, MainWindow.on_actionMDI_triggered_dead s hd] at ht
    | action_11 =>
      rcases h5 with ⟨hc, _, hr⟩ | ⟨hc, hu, _⟩
      · obtain ⟨t', ht', hinv, _⟩ := h'.step_action_11_mdi hc hr
        rw [← MainWindow.trigger_eq, ← MainWindow.step_triggered, ht'] at ht
        exact Option.some.inj ht ▸ hinv
      · simp only [MainWindow.on_triggered,
          MainWindow.on_action_11_triggered_tabbed s h2 hc h4, Option.map_some', h1, List.mem_cons, List.mem_singleton,
        List.not_mem_nil, reduceCtorEq, or_false, or_self, or_true, true_or, if_false,
        if_true] at ht
        refine (h'.of_step [] ht rfl rfl rfl rfl rfl ?_ (by simp [MainWindow.do_show])).1
        simp [MainWindow.do_show, hu, Ui.tabbed]

theorem ModeInv.run {s t : MainWindow} (h : ModeInv s) (events : List Event)
    (ht : s.run events = some t) : ModeInv t := by
  induction events generalizing s with
  | nil =>
    simp only [MainWindow.run] at ht
    exact Option.some.inj ht ▸ h
  | cons e events ih =>
    simp only [MainWindow.run] at ht
    cases hs : s.step e with
    | none => simp [hs] at ht
    | some s' =>
      rw [hs] at ht
      exact ih (h.step e hs) ht

theorem ModeInv.launch {ui : Ui} {objects : List QObject} {events : List Event}
    {s : MainWindow} (h : MainWindow.launch ui objects events = some s) : ModeInv s := by
  obtain ⟨s₀, h₀, hinv, _⟩ := ModeInv.construct ui objects
  simp only [MainWindow.launch, h₀] at h
  exact hinv.run events h

/-! ### The claims about the container window -/

/-- C3 on the code: from the constructor's state, selecting MDI leaves the MDI
area (pointer `1`) central and alive; selecting Tabbed then makes the tab widget
(pointer `2`) central and Qt deletes the MDI area it replaced; selecting MDI
again hands the dangling `midarea` to `setCentralWidget`, so the run is undefined
instead of returning to the first instance.  Starting with Tabbed fails the same
way at the second selection. -/
theorem MainWindow.mode_round_trip_dangling :
    (MainWindow.launch Ui.start [] [.triggered .actionMDI]).map
        (fun s => (s.centralWidget, s.midarea, s.alive s.midarea))
      = some (some 1, 1, true) ∧
    (MainWindow.launch Ui.start [] [.triggered .actionMDI, .triggered .action_11]).map
        (fun s => (s.centralWidget, s.tabwidget, s.alive s.midarea))
      = some (some 2, 2, false) ∧
    MainWindow.launch Ui.start []
        [.triggered .actionMDI, .triggered .action_11, .triggered .actionMDI] = none ∧
    MainWindow.launch Ui.start []
        [.triggered .action_11, .triggered .actionMDI, .triggered .action_11] = none := by
  decide

/-- C4 on the code: with one sub-window open in MDI mode (pointer `4`, wrapping
the `widget_edit` at pointer `3`), a trigger of `action_11` makes the tab widget
central, but once the slot has returned the MDI area is deleted together with
its sub-window and the widget in it, so its sub-window list is gone; and from
the Tabbed state so reached `on_actionMDI_triggered` is undefined, because
`midarea` dangles. -/
theorem MainWindow.mode_switch_deletes :
    (MainWindow.launch Ui.start [] [.triggered .action_1]).map
        (fun s => (s.centralWidget, s.subWindowList, s.alive 1, s.alive 3, s.alive 4))
      = some (some 1, [4], true, true, true) ∧
    (MainWindow.launch Ui.start [] [.triggered .action_1, .triggered .action_11]).map
        (fun s => (s.centralWidget, s.subWindowList, s.alive 1, s.alive 3, s.alive 4))
      = some (some 2, [], false, false, false) ∧
    (MainWindow.launch Ui.start [] [.triggered .action_11]).bind
        MainWindow.on_actionMDI_triggered = none := by
  decide

/-- C5 on the code: in the constructor's state `on_action_1_triggered` adds one
sub-window and no tab, `on_actionwigdet_triggered` and `on_action_triggered` add
one tab each and no sub-window, and closing tab `0` of the two leaves the second
(pointer `4`); after a trigger of `action_11` the MDI area
is deleted, and `on_action_1_triggered`, whose action `do_show` never hides,
calls `addSubWindow` on the dangling `midarea`: the run is undefined and no count
goes up by one. -/
theorem MainWindow.child_count_dangling :
    ((MainWindow.launch Ui.start [] []).bind MainWindow.on_action_1_triggered).map
        (fun s => (s.subWindowList.length, s.tabs.length)) = some (1, 0) ∧
    ((MainWindow.launch Ui.start [] []).bind MainWindow.on_actionwigdet_triggered).map
        (fun s => (s.subWindowList.length, s.tabs.length)) = some (0, 1) ∧
    ((MainWindow.launch Ui.start [] []).bind MainWindow.on_action_triggered).map
        (fun s => (s.subWindowList.length, s.tabs.length)) = some (0, 1) ∧
    (MainWindow.launch Ui.start []
        [.triggered .actionwigdet, .triggered .action, .tabCloseRequested 0]).map
        (fun s => (s.subWindowList, s.tabs.map Prod.fst)) = some ([], [4]) ∧
    (MainWindow.launch Ui.start [] [.triggered .action_11]).map
        (fun s => s.alive s.midarea) = some false ∧
    (MainWindow.launch Ui.start [] [.triggered .action_11]).bind
        MainWindow.on_action_1_triggered = none ∧
    MainWindow.launch Ui.start [] [.triggered .action_11, .triggered .action_1] = none := by
  decide

/-- C8 on the code: the constructor builds MDI mode (the MDI area, pointer `1`, is
central; `action_9` and `action_10` are visible, `action`, `action_13`,
`actionwigdet` and `action_wigdet` hidden); a trigger of `action_11` gives Tabbed
mode with the visibilities swapped, and Qt deletes the MDI area; a trigger of
`actionMDI` after that passes the dangling `midarea` to `setCentralWidget`, so
the run is undefined and no mode is active. -/
theorem MainWindow.mode_invariant_dangling :
    (MainWindow.launch Ui.start [] []).map
        (fun s => (s.centralWidget, s.midarea, s.ui)) = some (some 1, 1, Ui.mdi) ∧
    (MainWindow.launch Ui.start [] [.triggered .action_11]).map
        (fun s => (s.centralWidget, s.tabwidget, s.ui, s.alive s.midarea))
      = some (some 2, 2, Ui.tabbed, false) ∧
    MainWindow.launch Ui.start [] [.triggered .action_11, .triggered .actionMDI] = none := by
  decide

/-- C7, as stated, fails: in the constructor's state `on_action_1_triggered`
creates a `widget_edit` (pointer `3`) whose delete-on-close attribute is not
set. -/
theorem MainWindow.widget_edit_not_marked :
    (((MainWindow.launch Ui.start [] []).bind MainWindow.on_action_1_triggered).bind
        (fun t => t.objects[3]?)).map (fun o => (o.cls, o.deleteOnClose))
      = some (Class.widget_edit, false) := by
  decide

/-- C7, amended.  Every handler that creates a sub-document leaves it marked for
disposal on close.  On every window state, `on_action_wigdet_triggered` and
`on_action_13_triggered` create one widget with the delete-on-close attribute
set; while the tab widget exists, so do `on_actionwigdet_triggered` and
`on_action_triggered`; while the MDI area exists, `on_action_1_triggered` creates
one `widget_edit` without the attribute and `addSubWindow` makes it the child of
one new sub-window of the MDI area that has the attribute set. -/
theorem MainWindow.spawn_disposal_mark (s : MainWindow) :
    (∃ t, s.on_action_wigdet_triggered = some t ∧
      t.objects = s.objects ++
        [{ cls := .FormDoc, parent := .null, deleteOnClose := true,
           windowTitle := "widget", visible := true, destroyed := false }]) ∧
    (∃ t, s.on_action_13_triggered = some t ∧
      t.objects = s.objects ++
        [{ cls := .TTable, parent := .null, deleteOnClose := true,
           windowTitle := "tablewidget", visible := true, destroyed := false }]) ∧
    (s.alive s.tabwidget = true →
      ∃ t, s.on_actionwigdet_triggered = some t ∧
        t.objects = s.objects ++
          [{ cls := .FormDoc, parent := .object s.tabwidget, deleteOnClose := true,
             windowTitle := "", visible := false, destroyed := false }]) ∧
    (s.alive s.tabwidget = true →
      ∃ t, s.on_action_triggered = some t ∧
        t.objects = s.objects ++
          [{ cls := .TTable, parent := .object s.tabwidget, deleteOnClose := true,
             windowTitle := "", visible := false, destroyed := false }]) ∧
    (s.alive s.midarea = true →
      ∃ t, s.on_action_1_triggered = some t ∧
        t.objects = s.objects ++
          [{ cls := .widget_edit, parent := .object (s.objects.length + 1),
             deleteOnClose := false, windowTitle := "", visible := false,
             destroyed := false },
           { cls := .QMdiSubWindow, parent := .object s.midarea, deleteOnClose := true,
             windowTitle := "", visible := false, destroyed := false }] ∧
        t.subWindowList = s.subWindowList ++ [s.objects.length + 1]) :=
  ⟨⟨_, s.on_action_wigdet_triggered_eq, rfl⟩,
   ⟨_, s.on_action_13_triggered_eq, rfl⟩,
   fun h => ⟨_, s.on_actionwigdet_triggered_eq h, rfl⟩,
   fun h => ⟨_, s.on_action_triggered_eq h, rfl⟩,
   fun h => ⟨_, s.on_action_1_triggered_eq h, rfl, rfl⟩⟩

/-- Witness for the amended C7: in the constructor's state both containers
exist, and `on_action_1_triggered` there creates the `widget_edit` at pointer `3`
and its sub-window at pointer `4`. -/
theorem MainWindow.spawn_disposal_mark_witness :
    (MainWindow.sample.alive MainWindow.sample.tabwidget = true ∧
      MainWindow.sample.alive MainWindow.sample.midarea = true) ∧
    (∃ t, MainWindow.sample.on_actionwigdet_triggered = some t ∧
      t.objects = MainWindow.sample.objects ++
        [{ cls := .FormDoc, parent := .object 2, deleteOnClose := true,
           windowTitle := "", visible := false, destroyed := false }]) ∧
    (∃ t, MainWindow.sample.on_action_1_triggered = some t ∧
      t.objects = MainWindow.sample.objects ++
        [{ cls := .widget_edit, parent := .object 4, deleteOnClose := false,
           windowTitle := "", visible := false, destroyed := false },
         { cls := .QMdiSubWindow, parent := .object 1, deleteOnClose := true,
           windowTitle := "", visible := false, destroyed := false }] ∧
      t.subWindowList = MainWindow.sample.subWindowList ++ [4]) :=
  ⟨⟨by decide, by decide⟩,
   (MainWindow.spawn_disposal_mark MainWindow.sample).2.2.1 (by decide),
   (MainWindow.spawn_disposal_mark MainWindow.sample).2.2.2.2 (by decide)⟩

end Untitled7_2
